import Mathlib

/-
Verification development for the document ingestion & vector-index
synchronization pipeline (src/controllers/document_controller.py).

The controller is embedded as pure state-passing functions.  The external
collaborators it imports (models.documents and service.processors.service)
are not part of the visible source tree; they are modelled from the spec
(sections 4.4 and 6) where a claim depends on them, and each such
definition says so in its doc comment.  Exceptions are modelled with
explicit sum types; every externally observable effect (HTTP GET attempts,
index purge/upsert operations, metadata-store writes) is recorded in an
event trace carried by the state.
-/

namespace DocPipeline

/-- Document metadata record, as described by the spec's data model
(section 3) and read/written by the controller via the metadata store:
source URL, lowercase dot-free extension, owner, visibility, filename and
the derived chunk count. -/
structure DocMeta where
  file_url : String
  file_extension : String
  user_id : String
  is_public : Bool
  filename : String
  chunk_count : Nat
  deriving DecidableEq, Repr

/-- A chunk stored in the vector index: keyed by document_id and
sequence_index, carrying its text and the filtering metadata
(owner, visibility, filename) per section 3 of the spec. -/
structure Chunk where
  document_id : String
  sequence_index : Nat
  text : String
  user_id : String
  is_public : Bool
  filename : String
  deriving DecidableEq, Repr

/-- Externally observable operations, recorded in order of issue. -/
inductive Event where
  | httpGet (url : String)
  | purge (document_id : String)
  | upsert (document_id : String) (sequence_index : Nat)
  | metaCreate (document_id : String)
  | metaDelete (document_id : String)
  deriving DecidableEq, Repr

/-- The world state threaded through every handler: the metadata store,
the vector index, the set of temporary files currently on disk
(path, content), a count of HTTP download attempts made, and the trace of
externally observable operations. -/
structure PState where
  metadata : List (String × DocMeta)
  index : List Chunk
  tempFiles : List (String × String)
  httpAttempts : Nat
  trace : List Event
  deriving DecidableEq, Repr

/-- Uniform response shape returned by the controller's endpoints. -/
structure Resp where
  status : String
  message : String
  deriving DecidableEq, Repr

/-- Modelled from the spec: `get_document` (models.documents, not under
src/) is the Document Metadata Store lookup `get(id) -> DocumentMetadata?`
of section 6: a pure read returning the record for the id, if any. -/
def lookupMeta (l : List (String × DocMeta)) (document_id : String) : Option DocMeta :=
  (l.find? (fun p => p.1 = document_id)).map (fun p => p.2)

/-- Environment describing the behaviour of the external world during one
request: the HTTP status the blob source answers, whether the response
stream completes, the body bytes, the (deterministic, per section 4.3)
extraction+chunking functions for each supported format, and whether/where
the index writer's upsert fails.

Modelled from the spec: `process_pdf`, `process_docx` and
`process_text_file` (service.processors.service, not under src/) are the
Extractor+Chunker pipeline of sections 4.2-4.3, a deterministic function
from the fetched bytes to the ordered chunk texts; format-specific
internals are out of scope, so each is an arbitrary function supplied by
the environment. -/
structure Env where
  httpStatus : Nat
  streamOk : Bool
  content : String
  process_pdf : String → List String
  process_docx : String → List String
  process_text_file : String → List String
  upsertFailAfter : Option Nat

/-- Result of `download_document_file`: either a normal Python return
(the pair the function returns: an optional temp-file path together with
the extension or an error message), or an exception propagating out. -/
inductive DownloadResult where
  | ret (path : Option String) (info : String)
  | exn (msg : String)
  deriving DecidableEq, Repr

/-- Whether a download raised an exception (rather than returning). -/
def DownloadResult.isExn : DownloadResult → Bool
  | .exn _ => true
  | .ret _ _ => false

/-- Fresh temporary-file path, suffixed like
`tempfile.NamedTemporaryFile(delete=False, suffix=...)`. -/
def freshTempPath (st : PState) (suffix : String) : String :=
  "tmp" ++ toString st.tempFiles.length ++ suffix

/-- Delete a temporary file if it exists
(`if os.path.exists(p): os.remove(p)`). -/
def removeTemp (path : String) (st : PState) : PState :=
  { st with tempFiles := st.tempFiles.filter (fun q => q.1 ≠ path) }

/-- Content of a temporary file, if present. -/
def readTemp (st : PState) (path : String) : Option String :=
  (st.tempFiles.find? (fun q => q.1 = path)).map (fun q => q.2)

/-- Embedding of `download_document_file` (document_controller.py lines
158-186): look the document up in the metadata store; if absent return
`(None, "Document not found")`; otherwise issue one streamed GET to its
stored URL; on a non-200 status return
`(None, "Failed to download file from URL")`; otherwise create a
temporary file (before the body is consumed, `delete=False`) and stream
the body into it; if the stream terminates early the exception propagates
to the caller with the partially written temporary file left on disk;
on success return the path and the document's extension. -/
def download_document_file (env : Env) (document_id : String) (st : PState) :
    DownloadResult × PState :=
  match lookupMeta st.metadata document_id with
  | none => (.ret none "Document not found", st)
  | some document =>
    let st1 : PState :=
      { st with httpAttempts := st.httpAttempts + 1,
                trace := st.trace ++ [.httpGet document.file_url] }
    if env.httpStatus ≠ 200 then
      (.ret none "Failed to download file from URL", st1)
    else
      let path := freshTempPath st1 ("." ++ document.file_extension)
      if env.streamOk then
        (.ret (some path) document.file_extension,
         { st1 with tempFiles := st1.tempFiles ++ [(path, env.content)] })
      else
        (.exn "peer closed connection without sending complete message body",
         { st1 with tempFiles := st1.tempFiles ++ [(path, "")] })

/-- Insert a chunk keyed by (document_id, sequence_index): replaces the
chunk with the same key if present, otherwise appends (upsert semantics of
section 4.4: written keyed by a composite of document_id and
sequence_index). -/
def upsertChunk (c : Chunk) : List Chunk → List Chunk
  | [] => [c]
  | d :: rest =>
    if d.document_id = c.document_id ∧ d.sequence_index = c.sequence_index then
      c :: rest
    else
      d :: upsertChunk c rest

/-- Write the given chunk texts into the index with consecutive sequence
indices starting at `i`, recording one upsert event per chunk. -/
def writeChunksFrom (document_id user_id : String) (is_public : Bool)
    (filename : String) : List String → Nat → PState → PState
  | [], _, st => st
  | t :: rest, i, st =>
    let c : Chunk := ⟨document_id, i, t, user_id, is_public, filename⟩
    writeChunksFrom document_id user_id is_public filename rest (i + 1)
      { st with index := upsertChunk c st.index,
                trace := st.trace ++ [.upsert document_id i] }

/-- Modelled from the spec: `add_document`
(service.processors.service, not under src/) is the Index Writer `upsert`
of sections 4.4 and 6: embeds each chunk text and writes it keyed by the
composite of document_id and sequence_index with the filtering metadata
attached; per section 4.4 it may fail after writing k of n chunks, in
which case the exception propagates to the orchestrator. -/
def add_document (failAfter : Option Nat) (docs : List String)
    (user_id : String) (is_public : Bool) (document_id : String)
    (filename : String) (st : PState) : Except (String × PState) PState :=
  match failAfter with
  | none =>
    .ok (writeChunksFrom document_id user_id is_public filename docs 0 st)
  | some k =>
    if k < docs.length then
      .error ("index upsert failed",
        writeChunksFrom document_id user_id is_public filename (docs.take k) 0 st)
    else
      .ok (writeChunksFrom document_id user_id is_public filename docs 0 st)

/-- Extension dispatch of `reprocess_to_pinecone` (lines 202-209): route
the content to the format-appropriate extraction, or raise
`ValueError("Unsupported file type: ...")` for any other extension. -/
def extractChunks (env : Env) (file_ext : String) (content : String) :
    Except String (List String) :=
  if file_ext = "pdf" then .ok (env.process_pdf content)
  else if file_ext = "docx" ∨ file_ext = "doc" then .ok (env.process_docx content)
  else if file_ext = "md" ∨ file_ext = "txt" then .ok (env.process_text_file content)
  else .error ("Unsupported file type: " ++ file_ext)

/-- Body of the inner `try` of `reprocess_to_pinecone` (lines 201-227):
dispatch extraction by extension, re-read the metadata record (subscripting
it raises if it has vanished), hand the chunks to the index writer, and on
success build the success response reporting `len(documents)`.  Errors
carry the state at the point the exception was raised. -/
def reprocess_body (env : Env) (document_id path file_ext : String)
    (st : PState) : Except (String × PState) (Resp × PState) :=
  let content := (readTemp st path).getD ""
  match extractChunks env file_ext content with
  | .error msg => .error (msg, st)
  | .ok docs =>
    match lookupMeta st.metadata document_id with
    | none => .error ("argument of type NoneType is not subscriptable", st)
    | some document =>
      match add_document env.upsertFailAfter docs document.user_id
          document.is_public document_id document.filename st with
      | .error e => .error e
      | .ok st1 =>
        .ok (⟨"success",
              "Successfully reprocessed " ++ toString docs.length ++
                " documents into Pinecone"⟩, st1)

/-- State reached by a fallible step, whether it returned or raised. -/
def resState : Except (String × PState) (Resp × PState) → PState
  | .ok (_, s) => s
  | .error (_, s) => s

/-- State reached by the index writer, whether it returned or raised. -/
def addState : Except (String × PState) PState → PState
  | .ok s => s
  | .error (_, s) => s

/-- Embedding of `reprocess_to_pinecone` (lines 189-237): download the
stored content; a `(None, msg)` return becomes an error response; then run
the inner try with a `finally` that deletes the temporary file, and an
outer `except` that converts any exception (including one raised inside
`download_document_file` itself, in which case no cleanup runs) into the
uniform error response. -/
def reprocess_to_pinecone (env : Env) (document_id : String) (st : PState) :
    Resp × PState :=
  match download_document_file env document_id st with
  | (.exn msg, st1) => (⟨"error", msg⟩, st1)
  | (.ret none msg, st1) => (⟨"error", msg⟩, st1)
  | (.ret (some path) file_ext, st1) =>
    match reprocess_body env document_id path file_ext st1 with
    | .ok (resp, st2) => (resp, removeTemp path st2)
    | .error (msg, st2) => (⟨"error", msg⟩, removeTemp path st2)

/-- Modelled from the spec: `delete_chunks`
(service.processors.service, not under src/) is the Index Writer `purge`
of section 4.4: removes every chunk tagged with the document_id from the
vector index; succeeds as a no-op when none exist. -/
def delete_chunks (document_id : String) (st : PState) : PState :=
  { st with index := st.index.filter (fun c => c.document_id ≠ document_id),
            trace := st.trace ++ [.purge document_id] }

/-- Modelled from the spec: `delete_document` (models.documents, not under
src/) is the Document Metadata Store `delete(id) -> bool` of section 6:
removes the record and reports whether one existed. -/
def delete_document (document_id : String) (st : PState) : Bool × PState :=
  ((lookupMeta st.metadata document_id).isSome,
   { st with metadata := st.metadata.filter (fun p => p.1 ≠ document_id),
             trace := st.trace ++ [.metaDelete document_id] })

/-- Embedding of `delete_document_route` (lines 135-155): delete the
document's chunks first, then the metadata record; report an error if no
record existed. -/
def delete_document_route (document_id : String) (st : PState) : Resp × PState :=
  let st1 := delete_chunks document_id st
  match delete_document document_id st1 with
  | (true, st2) =>
    (⟨"success", "Document and its chunks deleted successfully"⟩, st2)
  | (false, st2) => (⟨"error", "Document not found"⟩, st2)

/-- Extension part of `os.path.splitext(filename)[1]`: the suffix from the
last dot, unless every character before that dot is itself a dot (a bare
dotfile has no extension). -/
def splitextExt (filename : String) : String :=
  let cs := filename.toList
  match ((List.range cs.length).filter (fun i => cs.get? i = some '.')).getLast? with
  | none => ""
  | some i =>
    if (List.range i).any (fun j => cs.get? j ≠ some '.') then
      String.mk (cs.drop i)
    else ""

/-- `str.lower()`, computed characterwise. -/
def lowerString (s : String) : String :=
  String.mk (s.toList.map Char.toLower)

/-- Environment for one upload request: the client-declared filename (which
`UploadFile.filename` may leave absent), whether reading the request body
succeeds, the body bytes, whether the metadata-store insert succeeds, the
id the store assigns, and the URL at which the blob is stored. -/
structure UploadEnv where
  filename : Option String
  readOk : Bool
  content : String
  createOk : Bool
  newId : String
  blob_url : String

/-- Outcome of the upload handler: either a response dictionary (uniform
status/message plus optional document payload), or an exception that
propagated out of the handler uncaught. -/
inductive UploadOutcome where
  | resp (r : Resp) (data : Option DocMeta)
  | crash (msg : String)
  deriving DecidableEq, Repr

/-- Modelled from the spec: `add_doc_with_link` (models.documents, not
under src/) is the Document Metadata Store `create` of section 6 combined
with external blob storage: it records a DocumentMetadata snapshot (source
URL, lowercase dot-free extension derived from the filename, owner,
visibility, initial chunk_count 0) under a fresh id and returns that id.
It performs no vector-index operation. -/
def add_doc_with_link (user_id : String) (is_public : Bool)
    (filename : String) (blob_url newId : String) (st : PState) :
    String × PState :=
  let meta : DocMeta :=
    ⟨blob_url, String.mk ((lowerString (splitextExt filename)).toList.drop 1),
     user_id, is_public, filename, 0⟩
  (newId,
   { st with metadata := st.metadata ++ [(newId, meta)],
             trace := st.trace ++ [.metaCreate newId] })

/-- Embedding of `upload_document` (lines 240-279).  If the client sent no
filename, `os.path.splitext(None)` raises before `temp_file_path` is
assigned, and the `except` block's `os.path.exists(temp_file_path)` then
raises UnboundLocalError, which propagates out of the handler (`crash`).
Otherwise: create the temporary file, write the body into it (a read
failure is caught and the file removed), insert the metadata record (a
store failure likewise), remove the temporary file, re-read the record and
return it in a success response. -/
def upload_document (env : UploadEnv) (user_id : String) (is_public : Bool)
    (st : PState) : UploadOutcome × PState :=
  match env.filename with
  | none =>
    (.crash "cannot access local variable temp_file_path where it is not associated with a value",
     st)
  | some fn =>
    let file_ext := lowerString (splitextExt fn)
    let path := freshTempPath st file_ext
    let st1 : PState :=
      { st with tempFiles :=
          st.tempFiles ++ [(path, if env.readOk then env.content else "")] }
    if env.readOk = false then
      (.resp ⟨"error", "file read failed"⟩ none, removeTemp path st1)
    else if env.createOk = false then
      (.resp ⟨"error", "metadata store insert failed"⟩ none, removeTemp path st1)
    else
      match add_doc_with_link user_id is_public fn env.blob_url env.newId st1 with
      | (newId, st2) =>
        let st3 := removeTemp path st2
        (.resp ⟨"success", "File uploaded successfully"⟩
           (lookupMeta st3.metadata newId), st3)

/-- The chunks currently indexed for a document. -/
def chunksFor (st : PState) (document_id : String) : List Chunk :=
  st.index.filter (fun c => c.document_id = document_id)

/-- Whether an event mutates the vector index. -/
def isIndexEvent : Event → Bool
  | .purge _ => true
  | .upsert _ _ => true
  | .httpGet _ => false
  | .metaCreate _ => false
  | .metaDelete _ => false

/-- Whether an event is an index purge. -/
def isPurgeEvent : Event → Bool
  | .purge _ => true
  | _ => false

/-- Metadata record for the test document `d1`: a stored text file whose
previous synchronization produced 3 chunks. -/
def metaD1 : DocMeta := ⟨"http://blob/d1", "txt", "u1", true, "notes.txt", 3⟩

/-- An indexed chunk of the old generation of `d1`. -/
def oldChunk (i : Nat) : Chunk := ⟨"d1", i, "OLD" ++ toString i, "u1", true, "notes.txt"⟩

/-- State with `d1` registered and its previous 3 chunks indexed. -/
def stC1 : PState :=
  ⟨[("d1", metaD1)], [oldChunk 0, oldChunk 1, oldChunk 2], [], 0, []⟩

/-- Environment in which the stored content of `d1` has changed and now
extracts to 2 chunks. -/
def envC1 : Env :=
  ⟨200, true, "v2", fun _ => [], fun _ => [],
   fun _ => ["NEW0", "NEW1"], none⟩

/-- State with `d1` registered (previous chunk_count 5) and an empty
index. -/
def stC2 : PState := ⟨[("d1", { metaD1 with chunk_count := 5 })], [], [], 0, []⟩

/-- Environment in which the stored content of `d1` extracts to 3 chunks. -/
def envC2 : Env :=
  ⟨200, true, "v3", fun _ => [], fun _ => [],
   fun _ => ["N0", "N1", "N2"], none⟩

/-- Environment whose download stream terminates before completion. -/
def envC3 : Env :=
  ⟨200, false, "v2", fun _ => [], fun _ => [], fun _ => ["X"], none⟩

/-- Environment for a clean single-chunk reprocess. -/
def envW3 : Env :=
  ⟨200, true, "v1", fun _ => [], fun _ => [], fun _ => ["X"], none⟩

/-- Upload environment for a well-formed request. -/
def uenvW3 : UploadEnv := ⟨some "notes.txt", true, "body", true, "n1", "http://blob/n1"⟩

/-- Metadata record whose stored extension `xyz` is unsupported. -/
def metaXyz : DocMeta := ⟨"http://blob/d2", "xyz", "u1", true, "weird.xyz", 0⟩

/-- State with the unsupported-format document `d2` registered. -/
def stW4 : PState := ⟨[("d2", metaXyz)], [], [], 0, []⟩

/-- State whose metadata store is empty. -/
def stEmpty : PState := ⟨[], [], [], 0, []⟩

/-- Environment answering HTTP 404 to the download. -/
def envNotFoundUrl : Env :=
  ⟨404, true, "", fun _ => [], fun _ => [], fun _ => [], none⟩

/-- Environment whose index writer fails after writing 1 chunk. -/
def envW6 : Env :=
  ⟨200, true, "v2", fun _ => [], fun _ => [],
   fun _ => ["a", "b", "c"], some 1⟩

/-- Upload environment for a request whose client sent no filename. -/
def uenvC8 : UploadEnv := ⟨none, true, "body", true, "n1", "http://blob/n1"⟩

/-- Environment in which `d1` currently extracts to the 3-chunk
generation A. -/
def envA9 : Env :=
  ⟨200, true, "vA", fun _ => [], fun _ => [],
   fun _ => ["A0", "A1", "A2"], none⟩

/-- Environment in which `d1` currently extracts to the 2-chunk
generation B. -/
def envB9 : Env :=
  ⟨200, true, "vB", fun _ => [], fun _ => [],
   fun _ => ["B0", "B1"], none⟩

/-- State with `d1` registered and nothing indexed. -/
def stD1 : PState := ⟨[("d1", metaD1)], [], [], 0, []⟩

/-- Upload environment used for the upload-then-reprocess scenario. -/
def uenvC10 : UploadEnv := ⟨some "paper.txt", true, "body", true, "n1", "http://blob/n1"⟩

/-- Environment for reprocessing the freshly uploaded document. -/
def envC10 : Env :=
  ⟨200, true, "body", fun _ => [], fun _ => [],
   fun _ => ["c0", "c1"], none⟩

/-- State with `d1` registered and two of its chunks indexed. -/
def stW7 : PState := ⟨[("d1", metaD1)], [oldChunk 0, oldChunk 1], [], 0, []⟩

/-- C1: the claim says every successful reprocess issues and completes the
Index Writer purge for the document_id before any upsert, so that after a
content change from N chunks to M chunks exactly M are present and zero of
the original N remain.  The code issues no purge at all on the reprocess
path: at the concrete failing input (document `d1` previously indexed with
3 chunks, content now extracting to 2 chunks) the run reports success, yet
3 chunks remain for `d1`, the stale old-generation chunk with
sequence_index 2 is still present, and the trace contains no purge event. -/
theorem C1_reprocess_missing_purge :
    (reprocess_to_pinecone envC1 "d1" stC1).1.status = "success" ∧
    (chunksFor (reprocess_to_pinecone envC1 "d1" stC1).2 "d1").length = 3 ∧
    oldChunk 2 ∈ (reprocess_to_pinecone envC1 "d1" stC1).2.index ∧
    ((reprocess_to_pinecone envC1 "d1" stC1).2.trace.any isPurgeEvent) = false := by
  decide

theorem writeChunksFrom_metadata (d u : String) (p : Bool) (f : String)
    (docs : List String) (i : Nat) (st : PState) :
    (writeChunksFrom d u p f docs i st).metadata = st.metadata := by
  induction docs generalizing i st with
  | nil => rfl
  | cons t rest ih =>
    simp only [writeChunksFrom]
    exact ih _ _

theorem writeChunksFrom_tempFiles (d u : String) (p : Bool) (f : String)
    (docs : List String) (i : Nat) (st : PState) :
    (writeChunksFrom d u p f docs i st).tempFiles = st.tempFiles := by
  induction docs generalizing i st with
  | nil => rfl
  | cons t rest ih =>
    simp only [writeChunksFrom]
    exact ih _ _

theorem addState_metadata (fa : Option Nat) (docs : List String) (u : String)
    (p : Bool) (d f : String) (st : PState) :
    (addState (add_document fa docs u p d f st)).metadata = st.metadata := by
  unfold add_document
  cases fa with
  | none => simp [addState, writeChunksFrom_metadata]
  | some k =>
    by_cases hk : k < docs.length
    · simp [hk, addState, writeChunksFrom_metadata]
    · simp [hk, addState, writeChunksFrom_metadata]

theorem addState_tempFiles (fa : Option Nat) (docs : List String) (u : String)
    (p : Bool) (d f : String) (st : PState) :
    (addState (add_document fa docs u p d f st)).tempFiles = st.tempFiles := by
  unfold add_document
  cases fa with
  | none => simp [addState, writeChunksFrom_tempFiles]
  | some k =>
    by_cases hk : k < docs.length
    · simp [hk, addState, writeChunksFrom_tempFiles]
    · simp [hk, addState, writeChunksFrom_tempFiles]

theorem resState_body_metadata (env : Env) (id path ext : String) (st : PState) :
    (resState (reprocess_body env id path ext st)).metadata = st.metadata := by
  unfold reprocess_body
  dsimp only
  split
  next msg hex => rfl
  next docs hex =>
    split
    next hdoc => rfl
    next doc hdoc =>
      have h := addState_metadata env.upsertFailAfter docs doc.user_id
        doc.is_public id doc.filename st
      split
      next e hadd =>
        rw [hadd] at h
        cases e with
        | mk m s => simpa [addState, resState] using h
      next s hadd =>
        rw [hadd] at h
        simpa [addState, resState] using h

theorem download_snd_metadata (env : Env) (id : String) (st : PState) :
    ((download_document_file env id st).2).metadata = st.metadata := by
  unfold download_document_file
  cases lookupMeta st.metadata id with
  | none => rfl
  | some doc =>
    by_cases h : env.httpStatus ≠ 200
    · simp [h]
    · by_cases hs : env.streamOk <;> simp [h, hs]

theorem reprocess_metadata (env : Env) (document_id : String) (st : PState) :
    ((reprocess_to_pinecone env document_id st).2).metadata = st.metadata := by
  unfold reprocess_to_pinecone
  have hd := download_snd_metadata env document_id st
  split
  next msg st1 hdl =>
    rw [hdl] at hd
    simpa using hd
  next msg st1 hdl =>
    rw [hdl] at hd
    simpa using hd
  next path info st1 hdl =>
    rw [hdl] at hd
    simp only at hd
    have hb := resState_body_metadata env document_id path info st1
    split
    next resp st2 hbody =>
      rw [hbody] at hb
      simp only [resState] at hb
      simp [removeTemp, hb, hd]
    next m st2 hbody =>
      rw [hbody] at hb
      simp only [resState] at hb
      simp [removeTemp, hb, hd]

/-- C2: counterexample — the claim says a successful reprocess updates the
`chunk_count` field on the document's metadata record.  At the concrete
input (stored chunk_count 5, content now extracting to 3 chunks) the run
succeeds yet the metadata record still carries chunk_count 5, not 3. -/
theorem C2_chunk_count_not_updated :
    (reprocess_to_pinecone envC2 "d1" stC2).1.status = "success" ∧
    (lookupMeta ((reprocess_to_pinecone envC2 "d1" stC2).2).metadata "d1").map
      DocMeta.chunk_count = some 5 ∧
    ¬ (lookupMeta ((reprocess_to_pinecone envC2 "d1" stC2).2).metadata "d1").map
      DocMeta.chunk_count = some 3 := by
  decide

/-- C2 (amended): a successful reprocess returns the final chunk count only
inside the success message; the metadata record is never written — reprocess
leaves the metadata store exactly as it found it, so `chunk_count` is not
updated.  Shown by the universal metadata-invariance of the handler
together with the concrete 3-chunk run whose message reports 3. -/
theorem C2_reports_count_but_never_writes_metadata :
    (∀ env document_id st,
      ((reprocess_to_pinecone env document_id st).2).metadata = st.metadata) ∧
    ((reprocess_to_pinecone envC2 "d1" stC2).1 =
        ⟨"success", "Successfully reprocessed 3 documents into Pinecone"⟩ ∧
      (chunksFor (reprocess_to_pinecone envC2 "d1" stC2).2 "d1").length = 3) :=
  ⟨reprocess_metadata, by decide⟩

theorem resState_body_tempFiles (env : Env) (id path ext : String) (st : PState) :
    (resState (reprocess_body env id path ext st)).tempFiles = st.tempFiles := by
  unfold reprocess_body
  dsimp only
  split
  next msg hex => rfl
  next docs hex =>
    split
    next hdoc => rfl
    next doc hdoc =>
      have h := addState_tempFiles env.upsertFailAfter docs doc.user_id
        doc.is_public id doc.filename st
      split
      next e hadd =>
        rw [hadd] at h
        cases e with
        | mk m s => simpa [addState, resState] using h
      next s hadd =>
        rw [hadd] at h
        simpa [addState, resState] using h

theorem download_ret_none_tempFiles (env : Env) (id : String) (st : PState)
    (m : String) (st1 : PState)
    (h : download_document_file env id st = (.ret none m, st1)) :
    st1.tempFiles = st.tempFiles := by
  unfold download_document_file at h
  split at h
  next => simp at h; rw [← h.2]
  next doc hdoc =>
    split at h
    next => simp at h; rw [← h.2]
    next =>
      split at h
      next => simp at h
      next => simp at h

theorem download_ret_some_tempFiles (env : Env) (id : String) (st : PState)
    (path info : String) (st1 : PState)
    (h : download_document_file env id st = (.ret (some path) info, st1)) :
    st1.tempFiles = st.tempFiles ++ [(path, env.content)] := by
  unfold download_document_file at h
  split at h
  next => simp at h
  next doc hdoc =>
    split at h
    next => simp at h
    next =>
      split at h
      next =>
        simp at h
        obtain ⟨⟨hp, hi⟩, hstate⟩ := h
        subst hstate
        subst hp
        rfl
      next => simp at h

/-- C3: counterexample — the claim says the temporary content resource is
released on every exit path.  At the concrete input the download stream
terminates early after the temporary file has been created: the handler
returns an error response, yet the temporary file is still present
afterwards (it was never removed, because the exception escaped
`download_document_file` before the path was returned to the caller whose
`finally` would delete it). -/
theorem C3_middownload_leak :
    (reprocess_to_pinecone envC3 "d1" stD1).1.status = "error" ∧
    ((reprocess_to_pinecone envC3 "d1" stD1).2).tempFiles ≠ [] := by
  decide

/-- C3 (amended): the temporary file is released on success and on every
failure that occurs after `download_document_file` has returned
(unsupported format, vanished metadata, index-write failure — via the
`finally` block), and the upload handler releases its temporary file on
every modelled path; but an exception raised mid-download escapes before
the path is returned, and that temporary file is leaked (see the
counterexample). -/
theorem C3_release_on_nonexn_paths :
    (∀ env document_id st, st.tempFiles = [] →
      (download_document_file env document_id st).1.isExn = false →
      ((reprocess_to_pinecone env document_id st).2).tempFiles = []) ∧
    (∀ uenv user_id pub st, st.tempFiles = [] →
      ((upload_document uenv user_id pub st).2).tempFiles = []) := by
  constructor
  · intro env document_id st hts hexn
    unfold reprocess_to_pinecone
    split
    next msg st1 hdl =>
      rw [hdl] at hexn
      simp [DownloadResult.isExn] at hexn
    next msg st1 hdl =>
      have := download_ret_none_tempFiles env document_id st msg st1 hdl
      simpa [this] using hts
    next path info st1 hdl =>
      have h1 := download_ret_some_tempFiles env document_id st path info st1 hdl
      rw [hts] at h1
      have hb := resState_body_tempFiles env document_id path info st1
      split
      next resp st2 hbody =>
        rw [hbody] at hb
        simp only [resState] at hb
        simp [removeTemp, hb, h1]
      next m st2 hbody =>
        rw [hbody] at hb
        simp only [resState] at hb
        simp [removeTemp, hb, h1]
  · intro uenv user_id pub st hts
    unfold upload_document
    split
    next => simpa using hts
    next fn =>
      dsimp only
      split
      next => simp [removeTemp, hts]
      next =>
        split
        next => simp [removeTemp, hts]
        next => simp [removeTemp, add_doc_with_link, hts]

/-- C3 witness: the amended release guarantee evaluated at a clean
single-chunk reprocess and a well-formed upload. -/
theorem C3_release_witness :
    ((reprocess_to_pinecone envW3 "d1" stD1).2).tempFiles = [] ∧
    ((upload_document uenvW3 "u9" true stEmpty).2).tempFiles = [] :=
  ⟨C3_release_on_nonexn_paths.1 envW3 "d1" stD1 rfl (by decide),
   C3_release_on_nonexn_paths.2 uenvW3 "u9" true stEmpty rfl⟩

theorem download_ok (env : Env) (id : String) (st : PState) (doc : DocMeta)
    (hdoc : lookupMeta st.metadata id = some doc)
    (hstatus : env.httpStatus = 200) (hstream : env.streamOk = true) :
    download_document_file env id st =
      (.ret (some (freshTempPath st ("." ++ doc.file_extension)))
         doc.file_extension,
       { st with httpAttempts := st.httpAttempts + 1,
                 trace := st.trace ++ [.httpGet doc.file_url],
                 tempFiles := st.tempFiles ++
                   [(freshTempPath st ("." ++ doc.file_extension), env.content)] }) := by
  unfold download_document_file
  rw [hdoc]
  simp [hstatus, hstream, freshTempPath]

theorem extract_unsupported (env : Env) (e c : String)
    (h1 : e ≠ "pdf") (h2 : e ≠ "docx") (h3 : e ≠ "doc") (h4 : e ≠ "md")
    (h5 : e ≠ "txt") :
    extractChunks env e c = .error ("Unsupported file type: " ++ e) := by
  simp [extractChunks, h1, h2, h3, h4, h5]

/-- C4: for a synchronization of content whose stored extension is none of
pdf, docx, doc, md, txt, the handler fails with the error response naming
the extension ("Unsupported file type: e"), the vector index and the
metadata store are left untouched, and no index operation (purge or
upsert) is even issued. -/
theorem C4_unsupported_format (env : Env) (document_id e : String)
    (st : PState) (doc : DocMeta)
    (hdoc : lookupMeta st.metadata document_id = some doc)
    (hext : doc.file_extension = e)
    (h1 : e ≠ "pdf") (h2 : e ≠ "docx") (h3 : e ≠ "doc") (h4 : e ≠ "md")
    (h5 : e ≠ "txt")
    (hstatus : env.httpStatus = 200) (hstream : env.streamOk = true) :
    (reprocess_to_pinecone env document_id st).1 =
      ⟨"error", "Unsupported file type: " ++ e⟩ ∧
    ((reprocess_to_pinecone env document_id st).2).index = st.index ∧
    ((reprocess_to_pinecone env document_id st).2).metadata = st.metadata ∧
    ((reprocess_to_pinecone env document_id st).2).trace.filter isIndexEvent =
      st.trace.filter isIndexEvent := by
  have hdl := download_ok env document_id st doc hdoc hstatus hstream
  unfold reprocess_to_pinecone
  rw [hdl]
  dsimp only
  unfold reprocess_body
  dsimp only
  rw [hext, extract_unsupported env e _ h1 h2 h3 h4 h5]
  dsimp only
  refine ⟨rfl, rfl, rfl, ?_⟩
  simp [removeTemp, isIndexEvent, List.filter_append]

/-- C4 witness: the unsupported-format theorem evaluated at document `d2`
whose stored extension is `xyz`. -/
theorem C4_unsupported_witness :
    (reprocess_to_pinecone envW3 "d2" stW4).1 =
      ⟨"error", "Unsupported file type: " ++ "xyz"⟩ ∧
    ((reprocess_to_pinecone envW3 "d2" stW4).2).index = stW4.index ∧
    ((reprocess_to_pinecone envW3 "d2" stW4).2).metadata = stW4.metadata ∧
    ((reprocess_to_pinecone envW3 "d2" stW4).2).trace.filter isIndexEvent =
      stW4.trace.filter isIndexEvent :=
  C4_unsupported_format envW3 "d2" "xyz" stW4 metaXyz (by decide) (by decide)
    (by decide) (by decide) (by decide) (by decide) (by decide) rfl rfl

theorem download_not_found (env : Env) (id : String) (st : PState)
    (h : lookupMeta st.metadata id = none) :
    download_document_file env id st = (.ret none "Document not found", st) := by
  unfold download_document_file
  rw [h]

theorem download_bad_status (env : Env) (id : String) (st : PState)
    (doc : DocMeta)
    (hdoc : lookupMeta st.metadata id = some doc)
    (hstatus : env.httpStatus ≠ 200) :
    download_document_file env id st =
      (.ret none "Failed to download file from URL",
       { st with httpAttempts := st.httpAttempts + 1,
                 trace := st.trace ++ [.httpGet doc.file_url] }) := by
  unfold download_document_file
  rw [hdoc]
  simp [hstatus]

theorem download_stream_fail (env : Env) (id : String) (st : PState)
    (doc : DocMeta)
    (hdoc : lookupMeta st.metadata id = some doc)
    (hstatus : env.httpStatus = 200) (hstream : env.streamOk = false) :
    download_document_file env id st =
      (.exn "peer closed connection without sending complete message body",
       { st with httpAttempts := st.httpAttempts + 1,
                 trace := st.trace ++ [.httpGet doc.file_url],
                 tempFiles := st.tempFiles ++
                   [(freshTempPath st ("." ++ doc.file_extension), "")] }) := by
  unfold download_document_file
  rw [hdoc]
  simp [hstatus, hstream, freshTempPath]

/-- C5: a reprocess whose metadata lookup fails returns the error response
"Document not found" with the state completely untouched (in particular no
index mutation and no download attempt); a non-success remote status
returns "Failed to download file from URL" after exactly one download
attempt, with the index untouched; an early stream termination surfaces
the transfer exception as an error response after exactly one download
attempt, with the index untouched.  The fetch layer makes exactly one GET
attempt in the latter two cases and zero in the first — no retries. -/
theorem C5_fetch_failures (env : Env) (document_id : String) (st : PState) :
    (lookupMeta st.metadata document_id = none →
      reprocess_to_pinecone env document_id st =
        (⟨"error", "Document not found"⟩, st)) ∧
    (∀ doc, lookupMeta st.metadata document_id = some doc →
      env.httpStatus ≠ 200 →
      (reprocess_to_pinecone env document_id st).1 =
        ⟨"error", "Failed to download file from URL"⟩ ∧
      ((reprocess_to_pinecone env document_id st).2).index = st.index ∧
      ((reprocess_to_pinecone env document_id st).2).httpAttempts =
        st.httpAttempts + 1) ∧
    (∀ doc, lookupMeta st.metadata document_id = some doc →
      env.httpStatus = 200 → env.streamOk = false →
      (reprocess_to_pinecone env document_id st).1 =
        ⟨"error", "peer closed connection without sending complete message body"⟩ ∧
      ((reprocess_to_pinecone env document_id st).2).index = st.index ∧
      ((reprocess_to_pinecone env document_id st).2).httpAttempts =
        st.httpAttempts + 1) := by
  refine ⟨fun h => ?_, fun doc hdoc hstatus => ?_, fun doc hdoc hstatus hstream => ?_⟩
  · unfold reprocess_to_pinecone
    rw [download_not_found env document_id st h]
  · have hdl := download_bad_status env document_id st doc hdoc hstatus
    unfold reprocess_to_pinecone
    rw [hdl]
    exact ⟨rfl, rfl, rfl⟩
  · have hdl := download_stream_fail env document_id st doc hdoc hstatus hstream
    unfold reprocess_to_pinecone
    rw [hdl]
    exact ⟨rfl, rfl, rfl⟩

/-- C5 witness: the three fetch-failure cases evaluated at concrete
inputs — an unknown document id, a 404 answer for `d1`, and an early
stream termination for `d1`. -/
theorem C5_fetch_failures_witness :
    reprocess_to_pinecone envW3 "nope" stEmpty =
      (⟨"error", "Document not found"⟩, stEmpty) ∧
    ((reprocess_to_pinecone envNotFoundUrl "d1" stD1).1 =
        ⟨"error", "Failed to download file from URL"⟩ ∧
      ((reprocess_to_pinecone envNotFoundUrl "d1" stD1).2).index = stD1.index ∧
      ((reprocess_to_pinecone envNotFoundUrl "d1" stD1).2).httpAttempts =
        stD1.httpAttempts + 1) ∧
    ((reprocess_to_pinecone envC3 "d1" stD1).1 =
        ⟨"error", "peer closed connection without sending complete message body"⟩ ∧
      ((reprocess_to_pinecone envC3 "d1" stD1).2).index = stD1.index ∧
      ((reprocess_to_pinecone envC3 "d1" stD1).2).httpAttempts =
        stD1.httpAttempts + 1) :=
  ⟨(C5_fetch_failures envW3 "nope" stEmpty).1 (by decide),
   (C5_fetch_failures envNotFoundUrl "d1" stD1).2.1 metaD1 (by decide) (by decide),
   (C5_fetch_failures envC3 "d1" stD1).2.2 metaD1 (by decide) rfl rfl⟩

theorem readTemp_cons_self (p c : String) (md : List (String × DocMeta))
    (ix : List Chunk) (ha : Nat) (tr : List Event) :
    readTemp ⟨md, ix, [(p, c)], ha, tr⟩ p = some c := by
  simp [readTemp]

/-- C6: when the Index Writer fails after writing k of n chunks
(k < n, per the spec-modelled partial-failure behaviour of `add_document`),
the handler surfaces the upsert failure as the error response and the
metadata record — in particular its chunk_count — is left exactly as it
was. -/
theorem C6_partial_write (env : Env) (document_id : String) (st : PState)
    (doc : DocMeta) (docs : List String) (k : Nat)
    (hdoc : lookupMeta st.metadata document_id = some doc)
    (hstatus : env.httpStatus = 200) (hstream : env.streamOk = true)
    (hts : st.tempFiles = [])
    (hex : extractChunks env doc.file_extension env.content = .ok docs)
    (hfail : env.upsertFailAfter = some k) (hk : k < docs.length) :
    (reprocess_to_pinecone env document_id st).1 =
      ⟨"error", "index upsert failed"⟩ ∧
    ((reprocess_to_pinecone env document_id st).2).metadata = st.metadata := by
  obtain ⟨md, ix, tf, ha, tr⟩ := st
  simp only at hts
  subst hts
  have hdl := download_ok env document_id _ doc hdoc hstatus hstream
  unfold reprocess_to_pinecone
  rw [hdl]
  unfold reprocess_body
  simp only [List.nil_append]
  rw [readTemp_cons_self]
  simp only [Option.getD]
  rw [hex]
  simp only at hdoc
  rw [hdoc]
  unfold add_document
  rw [hfail]
  simp only [hk, if_true]
  simp [removeTemp, writeChunksFrom_metadata]

/-- C6 witness: the partial-write theorem evaluated at `d1` with the index
writer failing after 1 of 3 chunks. -/
theorem C6_partial_write_witness :
    (reprocess_to_pinecone envW6 "d1" stD1).1 =
      ⟨"error", "index upsert failed"⟩ ∧
    ((reprocess_to_pinecone envW6 "d1" stD1).2).metadata = stD1.metadata :=
  C6_partial_write envW6 "d1" stD1 metaD1 ["a", "b", "c"] 1 rfl rfl rfl rfl
    rfl rfl (by decide)

/-- C7: deleting a document issues the index purge strictly before the
metadata deletion (the trace always extends by the purge event, then the
metadata-delete event, in that order), and after a successful delete the
index holds zero chunks tagged with the document_id and the metadata
record is absent. -/
theorem C7_delete_order_and_result (document_id : String) (st : PState) :
    ((delete_document_route document_id st).2).trace =
      st.trace ++ [Event.purge document_id, Event.metaDelete document_id] ∧
    ((delete_document_route document_id st).1.status = "success" →
      chunksFor (delete_document_route document_id st).2 document_id = [] ∧
      lookupMeta ((delete_document_route document_id st).2).metadata
        document_id = none) := by
  unfold delete_document_route delete_document delete_chunks
  dsimp only
  by_cases h : (lookupMeta st.metadata document_id).isSome
  · rw [h]
    dsimp only
    refine ⟨by simp, fun _ => ⟨?_, ?_⟩⟩
    · simp [chunksFor, List.filter_filter]
    · simp [lookupMeta, List.find?_eq_none, List.mem_filter]
  · rw [Bool.not_eq_true] at h
    rw [h]
    dsimp only
    refine ⟨by simp, fun hc => ?_⟩
    simp at hc

/-- C7 witness: the delete theorem evaluated at a state where `d1` exists
with two indexed chunks; the delete succeeds there. -/
theorem C7_delete_witness :
    ((delete_document_route "d1" stW7).2).trace =
      stW7.trace ++ [Event.purge "d1", Event.metaDelete "d1"] ∧
    (chunksFor (delete_document_route "d1" stW7).2 "d1" = [] ∧
      lookupMeta ((delete_document_route "d1" stW7).2).metadata "d1" = none) :=
  ⟨(C7_delete_order_and_result "d1" stW7).1,
   (C7_delete_order_and_result "d1" stW7).2 (by decide)⟩

theorem reprocess_body_ok_status (env : Env) (id path ext : String)
    (st : PState) (resp : Resp) (st2 : PState)
    (h : reprocess_body env id path ext st = .ok (resp, st2)) :
    resp.status = "success" := by
  unfold reprocess_body at h
  dsimp only at h
  split at h
  next => simp at h
  next docs hex =>
    split at h
    next => simp at h
    next doc hdoc =>
      split at h
      next e hadd => simp at h
      next s hadd =>
        simp only [Except.ok.injEq, Prod.mk.injEq] at h
        rw [← h.1]

theorem reprocess_status_total (env : Env) (document_id : String)
    (st : PState) :
    (reprocess_to_pinecone env document_id st).1.status = "success" ∨
    (reprocess_to_pinecone env document_id st).1.status = "error" := by
  unfold reprocess_to_pinecone
  split
  next => right; rfl
  next => right; rfl
  next path info st1 hdl =>
    split
    next resp st2 hbody =>
      left
      exact reprocess_body_ok_status env document_id path info st1 resp st2 hbody
    next => right; rfl

theorem delete_route_status_total (document_id : String) (st : PState) :
    (delete_document_route document_id st).1.status = "success" ∨
    (delete_document_route document_id st).1.status = "error" := by
  unfold delete_document_route delete_document delete_chunks
  dsimp only
  by_cases h : (lookupMeta st.metadata document_id).isSome
  · rw [h]; left; rfl
  · rw [Bool.not_eq_true] at h; rw [h]; right; rfl

/-- C8: counterexample — the claim says every error arising while handling
a pipeline endpoint request yields the uniform status/message response
rather than a propagating exception.  When the upload request carries no
filename, `os.path.splitext(None)` raises before `temp_file_path` is
assigned, and the handler's own `except` block then raises
UnboundLocalError while checking `os.path.exists(temp_file_path)`: the
exception propagates out of the handler instead of producing the uniform
response. -/
theorem C8_upload_crash :
    (upload_document uenvC8 "u1" true stEmpty).1 =
      UploadOutcome.crash
        "cannot access local variable temp_file_path where it is not associated with a value" := by
  decide

/-- C8 (amended): the reprocess and delete endpoints map every modelled
outcome to a response whose status is "success" or "error"; the upload
endpoint does so whenever the request carries a filename, but a
filename-less request makes its error handler itself raise, and that
exception propagates (see the counterexample). -/
theorem C8_uniform_error_responses :
    (∀ env document_id st,
      (reprocess_to_pinecone env document_id st).1.status = "success" ∨
      (reprocess_to_pinecone env document_id st).1.status = "error") ∧
    (∀ document_id st,
      (delete_document_route document_id st).1.status = "success" ∨
      (delete_document_route document_id st).1.status = "error") ∧
    (∀ uenv user_id pub st, uenv.filename.isSome = true →
      ∃ r data, (upload_document uenv user_id pub st).1 =
          UploadOutcome.resp r data ∧
        (r.status = "success" ∨ r.status = "error")) := by
  refine ⟨reprocess_status_total, delete_route_status_total, ?_⟩
  intro uenv user_id pub st h
  obtain ⟨fn, hfn⟩ := Option.isSome_iff_exists.mp h
  unfold upload_document
  rw [hfn]
  dsimp only
  split
  next => exact ⟨_, _, rfl, Or.inr rfl⟩
  next =>
    split
    next => exact ⟨_, _, rfl, Or.inr rfl⟩
    next =>
      unfold add_doc_with_link
      exact ⟨_, _, rfl, Or.inl rfl⟩

/-- C8 witness: a well-formed upload produces a uniform response. -/
theorem C8_uniform_witness :
    ∃ r data, (upload_document uenvW3 "u1" true stEmpty).1 =
        UploadOutcome.resp r data ∧
      (r.status = "success" ∨ r.status = "error") :=
  C8_uniform_error_responses.2.2 uenvW3 "u1" true stEmpty rfl

/-- C9: counterexample — the claim says a per-document_id single-flight
guarantee makes a second synchronization for the same id either wait and
complete consistently or be rejected with an AlreadyInProgress error, and
that a mixed-generation chunk set is never observable.  The handler has no
such mechanism: two reprocess runs for `d1` (the first fetching content
that extracts to generation A with 3 chunks, the second fetching changed
content extracting to generation B with 2 chunks) both report success and
leave the index holding B0 and B1 from the new generation together with
the stale A2 from the old one — a mixed-generation chunk set, with no
rejection. -/
theorem C9_mixed_generation_observable :
    (reprocess_to_pinecone envA9 "d1" stD1).1.status = "success" ∧
    (reprocess_to_pinecone envB9 "d1"
        (reprocess_to_pinecone envA9 "d1" stD1).2).1.status = "success" ∧
    (⟨"d1", 0, "B0", "u1", true, "notes.txt"⟩ : Chunk) ∈
      (reprocess_to_pinecone envB9 "d1"
        (reprocess_to_pinecone envA9 "d1" stD1).2).2.index ∧
    (⟨"d1", 2, "A2", "u1", true, "notes.txt"⟩ : Chunk) ∈
      (reprocess_to_pinecone envB9 "d1"
        (reprocess_to_pinecone envA9 "d1" stD1).2).2.index := by
  decide

/-- C9 (amended): the handler provides no per-document mutual exclusion
and no AlreadyInProgress rejection: every reprocess request runs to
completion with a success or error response regardless of other requests
for the same document_id, and two reprocess requests for the same
document_id can both succeed while leaving a mixed-generation chunk set
(no purge separates the generations). -/
theorem C9_no_mutual_exclusion :
    (∀ env document_id st,
      (reprocess_to_pinecone env document_id st).1.status = "success" ∨
      (reprocess_to_pinecone env document_id st).1.status = "error") ∧
    (∃ envA envB st,
      (reprocess_to_pinecone envA "d1" st).1.status = "success" ∧
      (reprocess_to_pinecone envB "d1"
          (reprocess_to_pinecone envA "d1" st).2).1.status = "success" ∧
      chunksFor (reprocess_to_pinecone envB "d1"
          (reprocess_to_pinecone envA "d1" st).2).2 "d1" =
        [⟨"d1", 0, "B0", "u1", true, "notes.txt"⟩,
         ⟨"d1", 1, "B1", "u1", true, "notes.txt"⟩,
         ⟨"d1", 2, "A2", "u1", true, "notes.txt"⟩]) :=
  ⟨reprocess_status_total, envA9, envB9, stD1, by decide⟩

/-- C10: the upload endpoint performs no extraction, chunking or
vector-index write — on every modelled path it leaves the index unchanged
and issues no index operation (no purge or upsert event); it only stores
the file and creates the metadata record.  At the concrete run, after the
upload the index holds no chunks for the new document `n1`, and only the
subsequent reprocess request puts its 2 chunks into the index. -/
theorem C10_upload_leaves_index_unchanged :
    (∀ uenv user_id pub st,
      ((upload_document uenv user_id pub st).2).index = st.index ∧
      ((upload_document uenv user_id pub st).2).trace.filter isIndexEvent =
        st.trace.filter isIndexEvent) ∧
    (chunksFor (upload_document uenvC10 "u1" true stEmpty).2 "n1" = [] ∧
      (reprocess_to_pinecone envC10 "n1"
          (upload_document uenvC10 "u1" true stEmpty).2).1.status = "success" ∧
      chunksFor (reprocess_to_pinecone envC10 "n1"
          (upload_document uenvC10 "u1" true stEmpty).2).2 "n1" =
        [⟨"n1", 0, "c0", "u1", true, "paper.txt"⟩,
         ⟨"n1", 1, "c1", "u1", true, "paper.txt"⟩]) := by
  constructor
  · intro uenv user_id pub st
    unfold upload_document
    split
    next => exact ⟨rfl, rfl⟩
    next fn =>
      dsimp only
      split
      next => exact ⟨rfl, rfl⟩
      next =>
        split
        next => exact ⟨rfl, rfl⟩
        next =>
          unfold add_doc_with_link
          dsimp only
          exact ⟨rfl, by simp [removeTemp, List.filter_append, isIndexEvent]⟩
  · exact ⟨by decide, by decide, by decide⟩

end DocPipeline
